import Mathlib

/-!
Verification of the medapp data-generator scripts (src/generators).

The repository is a set of Rust binaries that seed a MongoDB instance with
synthetic medical records.  Each binary follows the same shape: validate the
requested count, connect to storage, optionally cache foreign-key pools from
prerequisite collections, then synthesize documents and insert them in batches
of 100, aborting on the first failed bulk insert.

This file shallowly embeds those programs:

* the batch partition arithmetic (`numBatches`, `currentBatchSize`) is taken
  verbatim from the loops in `patients.rs`, `medecins.rs`, `radiologues.rs`,
  `ordonnances.rs` and `reports.rs` (they are textually identical);
* the insert loop (`insertBatches`) models the `for batch_idx in 0..num_batches`
  loop with MongoDB `insert_many` abstracted as an oracle
  `Nat → Nat → InsertResult` (batch index and submitted size to a reported
  inserted count or an error), the `indicatif` progress bar position as
  `LoopState.progress` (the code calls `pb.inc(current_batch_size)`), and the
  driver calls that were issued as explicit traces;
* randomness is modelled by an explicit draw function `d : Nat → Nat`; the
  `rand` primitives `gen_range` and `SliceRandom::choose` are embedded so that
  an arbitrary draw is mapped into the sampled range by `% width`, which has
  exactly the support of the uniform distribution the code samples from;
* external collaborators (the `fake` text synthesizer, `bcrypt`, `uuid`) are
  parameters of the synthesis functions;
* timestamps are modelled at day granularity as integers (`chrono` dates are
  only manipulated through whole-day `Duration::days` offsets before being
  rendered to strings).
-/

namespace Medapp

/-- MongoDB `ObjectId` values are opaque storage-assigned keys; the embedding
only ever copies and compares them, so they are modelled as naturals. -/
abbrev ObjectId := Nat

/-! ### rand primitives -/

/-- `rand`'s `rng.gen_range(lo..hi)`: a uniform sample in `[lo, hi)`.  The draw
`r` is an arbitrary natural; `lo + r % (hi - lo)` has exactly the support
`[lo, hi)` of the distribution sampled by the code (for `lo < hi`). -/
def genRange (lo hi r : Nat) : Nat := lo + r % (hi - lo)

/-- `rand`'s `rng.gen_range(lo..=hi)`: a uniform sample in `[lo, hi]`. -/
def genRangeIncl (lo hi r : Nat) : Nat := lo + r % (hi + 1 - lo)

/-- `rand`'s `rng.gen_bool(p)` for `p` given in tenths (the sources use
`gen_bool(0.3)`, `gen_bool(0.5)`, `gen_bool(0.7)`). -/
def genBoolTenths (numTenths r : Nat) : Bool := r % 10 < numTenths

/-- `SliceRandom::choose`: `None` exactly on an empty slice, otherwise a
uniformly chosen element.  The draw `r` is reduced mod the length, which is the
support of `gen_range(0..len)` used by the library. -/
def choose {α : Type} (l : List α) (r : Nat) : Option α := l.get? (r % l.length)

theorem choose_eq_some {α : Type} (l : List α) (r : Nat) (h : l ≠ []) :
    ∃ a, choose l r = some a ∧ a ∈ l := by
  have hlen : 0 < l.length := List.length_pos.mpr h
  have hlt : r % l.length < l.length := Nat.mod_lt r hlen
  refine ⟨l.get ⟨r % l.length, hlt⟩, ?_, List.get_mem l _ hlt⟩
  exact List.get?_eq_get hlt

/-- Day-granularity embedding of the date pattern shared by all generators:
`let w_ago = now - Duration::days(W); let random_days = rng.gen_range(0..W);
(w_ago + Duration::days(random_days)).to_rfc3339()`.  `nowDay` is today's day
number and the result is the generated date's day number. -/
def randomDateWithin (W : Nat) (nowDay : Int) (r : Nat) : Int :=
  (nowDay - W) + genRange 0 W r

/-! ### Batch partition arithmetic (identical in all five generator binaries)

```rust
let batch_size = 100;
let num_batches = (count + batch_size - 1) / batch_size;
// per batch:
let current_batch_size = std::cmp::min(batch_size, count - batch_idx * batch_size);
```
-/

/-- `let batch_size = 100;` -/
def batchCapacity : Nat := 100

/-- `let num_batches = (count + batch_size - 1) / batch_size;` -/
def numBatches (count : Nat) : Nat := (count + batchCapacity - 1) / batchCapacity

/-- `std::cmp::min(batch_size, count - batch_idx * batch_size)`.  For the loop
indices `i < numBatches count` the Rust `usize` subtraction never underflows
(`i * 100 < count` there, proved in `mul_lt_of_lt_numBatches`), so truncated
`Nat` subtraction agrees with it. -/
def currentBatchSize (count i : Nat) : Nat :=
  min batchCapacity (count - i * batchCapacity)

theorem numBatches_zero : numBatches 0 = 0 := rfl

theorem numBatches_pos {count : Nat} (h : 0 < count) : 0 < numBatches count := by
  have : 1 ≤ (count + batchCapacity - 1) / batchCapacity := by
    rw [Nat.le_div_iff_mul_le (by decide : 0 < batchCapacity)]
    simp only [batchCapacity, one_mul]
    omega
  exact this

theorem count_pos_of_lt_numBatches {count i : Nat} (h : i < numBatches count) : 0 < count := by
  by_contra hc
  push_neg at hc
  interval_cases count
  simp [numBatches_zero] at h

/-- Loop indices address real work: `i * 100 < count` for `i < numBatches count`. -/
theorem mul_lt_of_lt_numBatches {count i : Nat} (h : i < numBatches count) :
    i * batchCapacity < count := by
  have h1 : i + 1 ≤ (count + batchCapacity - 1) / batchCapacity := h
  rw [Nat.le_div_iff_mul_le (by decide : 0 < batchCapacity)] at h1
  have hc : 0 < count := count_pos_of_lt_numBatches h
  have h2 : (i + 1) * batchCapacity = i * batchCapacity + batchCapacity := by ring
  omega

theorem currentBatchSize_le (count i : Nat) : currentBatchSize count i ≤ batchCapacity :=
  min_le_left _ _

theorem currentBatchSize_pos {count i : Nat} (h : i < numBatches count) :
    0 < currentBatchSize count i := by
  have := mul_lt_of_lt_numBatches h
  simp only [currentBatchSize, lt_min_iff]
  constructor
  · decide
  · omega

/-- Every batch except possibly the last is full. -/
theorem currentBatchSize_full {count i : Nat} (h : i + 1 < numBatches count) :
    currentBatchSize count i = batchCapacity := by
  have h1 : i + 2 ≤ (count + batchCapacity - 1) / batchCapacity := h
  rw [Nat.le_div_iff_mul_le (by decide : 0 < batchCapacity)] at h1
  have hc : 0 < count := count_pos_of_lt_numBatches (Nat.lt_of_succ_lt h)
  have h2 : (i + 2) * batchCapacity = i * batchCapacity + batchCapacity + batchCapacity := by
    ring
  simp only [currentBatchSize, Nat.min_def]
  split <;> omega

theorem numBatches_step {count : Nat} (h : batchCapacity < count) :
    numBatches count = numBatches (count - batchCapacity) + 1 := by
  have hb : 0 < batchCapacity := by decide
  have hnum : count + batchCapacity - 1 = (count - batchCapacity) + batchCapacity - 1
      + batchCapacity := by omega
  simp only [numBatches]
  rw [hnum, Nat.add_div_right _ hb]

theorem numBatches_one {count : Nat} (h1 : 0 < count) (h2 : count ≤ batchCapacity) :
    numBatches count = 1 := by
  have hb : 0 < batchCapacity := by decide
  have hlo : 1 ≤ (count + batchCapacity - 1) / batchCapacity := by
    rw [Nat.le_div_iff_mul_le hb]; omega
  have hhi : (count + batchCapacity - 1) / batchCapacity < 2 := by
    rw [Nat.div_lt_iff_lt_mul hb]; simp only [batchCapacity] at *; omega
  simp only [numBatches] at *
  omega

/-- The batch sizes of a run partition the requested count exactly. -/
theorem sum_currentBatchSize (count : Nat) :
    ∑ i in Finset.range (numBatches count), currentBatchSize count i = count := by
  induction count using Nat.strong_induction_on with
  | _ count ih =>
    rcases Nat.eq_zero_or_pos count with hz | hp
    · subst hz; simp [numBatches_zero]
    rcases le_or_lt count batchCapacity with hle | hgt
    · rw [numBatches_one hp hle]
      simp [currentBatchSize, Nat.min_def]
      omega
    · have hb : 0 < batchCapacity := by decide
      have hstep := numBatches_step hgt
      rw [hstep, Finset.sum_range_succ']
      have hshift : ∀ i : Nat, currentBatchSize count (i + 1)
          = currentBatchSize (count - batchCapacity) i := by
        intro i
        simp only [currentBatchSize]
        congr 1
        have : (i + 1) * batchCapacity = batchCapacity + i * batchCapacity := by ring
        omega
      have h0 : currentBatchSize count 0 = batchCapacity := by
        simp only [currentBatchSize, Nat.min_def]
        split <;> omega
      rw [h0]
      have hrec := ih (count - batchCapacity) (by omega)
      calc (∑ i in Finset.range (numBatches (count - batchCapacity)),
              currentBatchSize count (i + 1)) + batchCapacity
          = (∑ i in Finset.range (numBatches (count - batchCapacity)),
              currentBatchSize (count - batchCapacity) i) + batchCapacity := by
            rw [Finset.sum_congr rfl (fun i _ => hshift i)]
        _ = (count - batchCapacity) + batchCapacity := by rw [hrec]
        _ = count := by omega

/-- At most one batch of a run is smaller than the capacity. -/
theorem currentBatchSize_small_unique {count i j : Nat}
    (hi : i < numBatches count) (hj : j < numBatches count)
    (hsi : currentBatchSize count i < batchCapacity)
    (hsj : currentBatchSize count j < batchCapacity) : i = j := by
  by_contra hne
  rcases Nat.lt_or_ge i j with hij | hij
  · have : i + 1 < numBatches count := by omega
    rw [currentBatchSize_full this] at hsi
    omega
  · have hji : j < i := by omega
    have : j + 1 < numBatches count := by omega
    rw [currentBatchSize_full this] at hsj
    omega

/-- `numBatches` is ceiling division by the batch capacity. -/
theorem numBatches_eq_ceilDiv (count : Nat) : numBatches count = count ⌈/⌉ batchCapacity :=
  rfl

/-! ### The bulk-insert loop (identical in all five generator binaries)

```rust
for batch_idx in 0..num_batches {
    let current_batch_size = std::cmp::min(batch_size, count - batch_idx * batch_size);
    // ... materialize `current_batch_size` documents into `batch` ...
    match collection.insert_many(batch, None).await {
        Ok(result) => {
            debug!("Inserted batch {}/{} with {} ...", .., result.inserted_ids.len());
            pb.inc(current_batch_size as u64);
        }
        Err(e) => { error!(...); return Err(Box::new(e)); }
    }
}
```

`insert_many` is abstracted as an oracle from batch index and submitted size to
its outcome; a success carries `result.inserted_ids.len()`, the count of
documents the storage layer reports as inserted. -/

/-- Outcome of one `collection.insert_many(batch, None)` call. -/
inductive InsertResult : Type
  | ok (insertedCount : Nat)
  | err (msg : String)
deriving DecidableEq, Repr

/-- Observable state of the insert loop:
* `progress` — the `indicatif` progress bar position (only ever changed by
  `pb.inc(current_batch_size)`);
* `submitted` — every `insert_many` call issued, as (batch index, submitted
  batch size), in order;
* `succeeded` — the successful calls, as (batch index, submitted batch size,
  storage-reported inserted count), in order. -/
structure LoopState : Type where
  progress : Nat
  submitted : List (Nat × Nat)
  succeeded : List (Nat × Nat × Nat)
deriving DecidableEq, Repr

def initState : LoopState := ⟨0, [], []⟩

/-- The `for batch_idx in 0..num_batches` loop, run over an explicit list of
batch indices.  Returns the final observable state and `some msg` iff the loop
was aborted by a failed insert (the `return Err(Box::new(e))` branch). -/
def insertBatches (storage : Nat → Nat → InsertResult) (count : Nat) :
    List Nat → LoopState → LoopState × Option String
  | [], st => (st, none)
  | i :: rest, st =>
    let s := currentBatchSize count i
    match storage i s with
    | .ok reported =>
        insertBatches storage count rest
          ⟨st.progress + s, st.submitted ++ [(i, s)], st.succeeded ++ [(i, s, reported)]⟩
    | .err msg => (⟨st.progress, st.submitted ++ [(i, s)], st.succeeded⟩, some msg)

/-- Driver calls issued by a generator run, in order. -/
inductive IOOp : Type
  | connect
  | read (collection : String)
  | write (collection : String) (size : Nat)
deriving DecidableEq, Repr

def exitCode {α : Type} : Except String α → Nat
  | .ok _ => 0
  | .error _ => 1

/-! ### patients.rs / medecins.rs / radiologues.rs run shape (no dependencies) -/

/-- The storage collaborator as seen by an independent generator: whether
`connect_to_mongodb` succeeds, and the `insert_many` oracle. -/
structure Storage : Type where
  connectOk : Bool
  insert : Nat → Nat → InsertResult

/-- `generate_patients(count)` (patients.rs lines 50–152): connect, then run the
batch loop against the `"patients"` collection.  The first component is the
returned `Result`, the second the trace of driver calls. -/
def generate_patients (st : Storage) (count : Nat) :
    Except String LoopState × List IOOp :=
  if st.connectOk then
    let r := insertBatches st.insert count (List.range (numBatches count)) initState
    ((match r.2 with
      | none => .ok r.1
      | some m => .error m),
     IOOp.connect :: r.1.submitted.map (fun p => IOOp.write "patients" p.2))
  else (.error "connection failed", [IOOp.connect])

/-- patients.rs `main`: `if args.number <= 0 { return Err(...) }` before any
I/O, then `generate_patients(args.number)`. -/
def patients_main (st : Storage) (number : Nat) : Except String Unit × List IOOp :=
  if number ≤ 0 then
    (.error "Number of patients must be greater than 0", [])
  else
    let r := generate_patients st number
    (r.1.map (fun _ => ()), r.2)

/-! ### ordonnances.rs: dependent generator -/

/-- `cache_ids` (ordonnances.rs lines 46–82): after draining the `"doctors"`
and `"patients"` cursors into id pools, fail if either pool is empty. -/
def cache_ids (medecin_ids patient_ids : List ObjectId) :
    Except String (List ObjectId × List ObjectId) :=
  if medecin_ids.isEmpty || patient_ids.isEmpty then
    .error "No doctors or patients found in the database. Please generate them first."
  else .ok (medecin_ids, patient_ids)

/-- Storage as seen by ordonnances.rs: connection outcome, the `_id` pools the
two `find(None, None)` scans return, and the `insert_many` oracle. -/
structure OrdStorage : Type where
  connectOk : Bool
  doctors : List ObjectId
  patients : List ObjectId
  insert : Nat → Nat → InsertResult

/-- `generate_ordonnances(count)` (ordonnances.rs lines 160–229): connect,
cache the id pools (aborting on empty pools before any batch is synthesized),
then run the batch loop against `"ordonnances"`. -/
def generate_ordonnances (st : OrdStorage) (count : Nat) :
    Except String LoopState × List IOOp :=
  if st.connectOk then
    match cache_ids st.doctors st.patients with
    | .error m =>
        (.error m, [IOOp.connect, IOOp.read "doctors", IOOp.read "patients"])
    | .ok _ =>
        let r := insertBatches st.insert count (List.range (numBatches count)) initState
        ((match r.2 with
          | none => .ok r.1
          | some m => .error m),
         [IOOp.connect, IOOp.read "doctors", IOOp.read "patients"]
           ++ r.1.submitted.map (fun p => IOOp.write "ordonnances" p.2))
  else (.error "connection failed", [IOOp.connect])

/-- ordonnances.rs `main`. -/
def ordonnances_main (st : OrdStorage) (number : Nat) : Except String Unit × List IOOp :=
  if number ≤ 0 then
    (.error "Number of prescriptions must be greater than 0", [])
  else
    let r := generate_ordonnances st number
    (r.1.map (fun _ => ()), r.2)

/-! ### reports.rs: dependent generator with three pools -/

/-- `cache_ids` (reports.rs lines 72–111). -/
def reports_cache_ids (patient_ids radiologue_ids medecin_ids : List ObjectId) :
    Except String (List ObjectId × List ObjectId × List ObjectId) :=
  if patient_ids.isEmpty || radiologue_ids.isEmpty || medecin_ids.isEmpty then
    .error "Missing required entities in the database. Please generate them first."
  else .ok (patient_ids, radiologue_ids, medecin_ids)

/-- Storage as seen by reports.rs. -/
structure RepStorage : Type where
  connectOk : Bool
  patients : List ObjectId
  radiologues : List ObjectId
  doctors : List ObjectId
  insert : Nat → Nat → InsertResult

/-- `generate_reports(count)` (reports.rs lines 154–218). -/
def generate_reports (st : RepStorage) (count : Nat) :
    Except String LoopState × List IOOp :=
  if st.connectOk then
    match reports_cache_ids st.patients st.radiologues st.doctors with
    | .error m =>
        (.error m,
         [IOOp.connect, IOOp.read "patients", IOOp.read "radiologues", IOOp.read "doctors"])
    | .ok _ =>
        let r := insertBatches st.insert count (List.range (numBatches count)) initState
        ((match r.2 with
          | none => .ok r.1
          | some m => .error m),
         [IOOp.connect, IOOp.read "patients", IOOp.read "radiologues", IOOp.read "doctors"]
           ++ r.1.submitted.map (fun p => IOOp.write "reports" p.2))
  else (.error "connection failed", [IOOp.connect])

/-- reports.rs `main`. -/
def reports_main (st : RepStorage) (number : Nat) : Except String Unit × List IOOp :=
  if number ≤ 0 then
    (.error "Number of reports must be greater than 0", [])
  else
    let r := generate_reports st number
    (r.1.map (fun _ => ()), r.2)

/-! ### Generic facts about the insert loop -/

/-- A prefix of indices that all insert successfully is folded into the state. -/
theorem insertBatches_append_ok (storage : Nat → Nat → InsertResult) (count : Nat)
    (rep : Nat → Nat) :
    ∀ (is1 is2 : List Nat) (st : LoopState),
      (∀ j ∈ is1, storage j (currentBatchSize count j) = .ok (rep j)) →
      insertBatches storage count (is1 ++ is2) st =
        insertBatches storage count is2
          ⟨st.progress + (is1.map (currentBatchSize count)).sum,
           st.submitted ++ is1.map (fun j => (j, currentBatchSize count j)),
           st.succeeded ++ is1.map (fun j => (j, currentBatchSize count j, rep j))⟩ := by
  intro is1
  induction is1 with
  | nil => intro is2 st _; simp
  | cons j js ih =>
    intro is2 st h
    have hj := h j (List.mem_cons_self j js)
    simp only [List.cons_append, insertBatches, hj]
    rw [show js.append is2 = js ++ is2 from rfl,
        ih is2 _ (fun k hk => h k (List.mem_cons_of_mem j hk))]
    simp only [List.map_cons, List.sum_cons]
    congr 2
    · omega
    · simp
    · simp

/-- A failing head index aborts the loop at once. -/
theorem insertBatches_fail_head (storage : Nat → Nat → InsertResult) (count : Nat)
    (i : Nat) (rest : List Nat) (st : LoopState) (msg : String)
    (h : storage i (currentBatchSize count i) = .err msg) :
    insertBatches storage count (i :: rest) st =
      (⟨st.progress, st.submitted ++ [(i, currentBatchSize count i)], st.succeeded⟩,
       some msg) := by
  simp only [insertBatches, h]

/-- The progress bar position always equals the sum of the *submitted* sizes of
the successful batches (the code calls `pb.inc(current_batch_size)`, never
`pb.inc(result.inserted_ids.len())`). -/
theorem insertBatches_progress_invariant (storage : Nat → Nat → InsertResult)
    (count : Nat) :
    ∀ (is : List Nat) (st : LoopState),
      st.progress = (st.succeeded.map (fun t => t.2.1)).sum →
      ((insertBatches storage count is st).1).progress
        = (((insertBatches storage count is st).1).succeeded.map (fun t => t.2.1)).sum := by
  intro is
  induction is with
  | nil => intro st h; simpa [insertBatches] using h
  | cons i rest ih =>
    intro st h
    simp only [insertBatches]
    cases hcall : storage i (currentBatchSize count i) with
    | ok reported =>
        apply ih
        simp [h]
    | err msg => simpa using h

/-! ### Claim theorems about the batch writer -/

/-- C1: for every `totalCount ≥ 0` with `batchCapacity = 100`, the batch loop
produces `ceil(totalCount/100)` batches whose sizes
`min(100, totalCount - i*100)` sum exactly to `totalCount`, every batch size is
`≤ 100`, at most one batch is smaller than `100`, and `totalCount = 0` yields
zero batches and zero storage calls. -/
theorem C1_batch_partition (totalCount : Nat) :
    batchCapacity = 100
  ∧ numBatches totalCount = totalCount ⌈/⌉ batchCapacity
  ∧ (∑ i in Finset.range (numBatches totalCount), currentBatchSize totalCount i) = totalCount
  ∧ (∀ i, i < numBatches totalCount → currentBatchSize totalCount i ≤ batchCapacity)
  ∧ (∀ i j, i < numBatches totalCount → j < numBatches totalCount →
      currentBatchSize totalCount i < batchCapacity →
      currentBatchSize totalCount j < batchCapacity → i = j)
  ∧ (totalCount = 0 → numBatches totalCount = 0 ∧
      ∀ storage : Nat → Nat → InsertResult,
        insertBatches storage totalCount (List.range (numBatches totalCount)) initState
          = (initState, none)) := by
  refine ⟨rfl, numBatches_eq_ceilDiv totalCount, sum_currentBatchSize totalCount,
    fun i _ => currentBatchSize_le totalCount i,
    fun i j hi hj hsi hsj => currentBatchSize_small_unique hi hj hsi hsj,
    fun hz => ?_⟩
  subst hz
  exact ⟨rfl, fun storage => rfl⟩

/-- A storage oracle that accepts every bulk insert but reports only 50
documents inserted (e.g. a uniqueness index rejected the other half). -/
def storageReportsHalf : Nat → Nat → InsertResult := fun _ _ => InsertResult.ok 50

/-- C2, counterexample: with a storage layer that reports 50 inserted documents
for the single 100-document batch of a 100-document run, the progress count
advanced by the writer (100, via `pb.inc(current_batch_size)`) differs from the
storage-reported inserted total (50): the code advances by the submitted batch
size, not the reported count. -/
theorem C2_counterexample :
    ((insertBatches storageReportsHalf 100 (List.range (numBatches 100)) initState).1).progress
      ≠ (((insertBatches storageReportsHalf 100
            (List.range (numBatches 100)) initState).1).succeeded.map
          (fun t => t.2.2)).sum := by decide

/-- C2, amended: for every run and every successfully inserted batch, the
running progress count advances by the number of documents *submitted* in the
batch (`pb.inc(current_batch_size)`), so the final progress equals the sum of
the submitted sizes of the successful batches; the storage-reported inserted
count is only written to the debug log and never enters the running total. -/
theorem C2_progress_counts_submitted (storage : Nat → Nat → InsertResult) (count : Nat) :
    ((insertBatches storage count (List.range (numBatches count)) initState).1).progress
      = (((insertBatches storage count (List.range (numBatches count)) initState).1).succeeded.map
          (fun t => t.2.1)).sum :=
  insertBatches_progress_invariant storage count _ initState rfl

/-- C3: if the bulk insert of batch `i` fails (all earlier batches having
succeeded), then exactly batches `0..i` are submitted — no batch after `i` is
synthesized or submitted — the work committed by the batches before `i`
(their storage-reported counts) is preserved in the final state, and the
process exits with a non-zero status. -/
theorem C3_failure_aborts (storage : Nat → Nat → InsertResult) (count i : Nat)
    (rep : Nat → Nat) (msg : String)
    (hi : i < numBatches count)
    (hok : ∀ j, j < i → storage j (currentBatchSize count j) = .ok (rep j))
    (hfail : storage i (currentBatchSize count i) = .err msg) :
    insertBatches storage count (List.range (numBatches count)) initState
      = (⟨((List.range i).map (currentBatchSize count)).sum,
          (List.range (i + 1)).map (fun j => (j, currentBatchSize count j)),
          (List.range i).map (fun j => (j, currentBatchSize count j, rep j))⟩,
         some msg)
  ∧ exitCode (patients_main ⟨true, storage⟩ count).1 = 1 := by
  have hsplit : List.range (numBatches count)
      = List.range i ++ (i :: ((List.range (numBatches count - i - 1)).map
          (fun k => i + 1 + k))) := by
    have h1 : numBatches count = i + (numBatches count - i) := by omega
    have h2 : numBatches count - i = 1 + (numBatches count - i - 1) := by omega
    rw [h1, List.range_add, h2, List.range_add]
    simp [List.range_succ_eq_map, Function.comp]
  have hrun : insertBatches storage count (List.range (numBatches count)) initState
      = (⟨((List.range i).map (currentBatchSize count)).sum,
          (List.range (i + 1)).map (fun j => (j, currentBatchSize count j)),
          (List.range i).map (fun j => (j, currentBatchSize count j, rep j))⟩,
         some msg) := by
    rw [hsplit,
      insertBatches_append_ok storage count rep (List.range i) _ initState
        (fun j hj => hok j (List.mem_range.mp hj)),
      insertBatches_fail_head storage count i _ _ msg hfail]
    simp [initState, List.range_succ]
  refine ⟨hrun, ?_⟩
  have hc : 0 < count := count_pos_of_lt_numBatches hi
  simp only [patients_main, generate_patients]
  rw [if_neg (by omega)]
  simp [hrun, exitCode, Except.map]

/-- Concrete storage for the C3 witness: batch 1 fails, everything else
succeeds with a full report. -/
def storageFailsAtOne : Nat → Nat → InsertResult :=
  fun i s => if i = 1 then InsertResult.err "boom" else InsertResult.ok s

theorem C3_failure_aborts_witness :
    insertBatches storageFailsAtOne 250 (List.range (numBatches 250)) initState
      = (⟨((List.range 1).map (currentBatchSize 250)).sum,
          (List.range 2).map (fun j => (j, currentBatchSize 250 j)),
          (List.range 1).map (fun j => (j, currentBatchSize 250 j,
            currentBatchSize 250 j))⟩,
         some "boom")
  ∧ exitCode (patients_main ⟨true, storageFailsAtOne⟩ 250).1 = 1 :=
  C3_failure_aborts storageFailsAtOne 250 1 (fun j => currentBatchSize 250 j) "boom"
    (by decide)
    (by intro j hj
        have : j = 0 := by omega
        subst this
        rfl)
    (by rfl)

/-- C4: for every run of a dependent generator (ordonnances, reports), if any
required reference pool fetched from storage is empty, the run fails with the
missing-prerequisite error after only the connect and the pool reads — no
document is synthesized and no write is issued — and the exit status is
non-zero. -/
theorem C4_missing_prerequisite (stO : OrdStorage) (stR : RepStorage)
    (countO countR : Nat)
    (hOc : stO.connectOk = true) (hOe : stO.doctors = [] ∨ stO.patients = [])
    (hRc : stR.connectOk = true)
    (hRe : stR.patients = [] ∨ stR.radiologues = [] ∨ stR.doctors = []) :
    (generate_ordonnances stO countO).1
        = .error "No doctors or patients found in the database. Please generate them first."
  ∧ (generate_ordonnances stO countO).2
        = [IOOp.connect, IOOp.read "doctors", IOOp.read "patients"]
  ∧ exitCode (generate_ordonnances stO countO).1 = 1
  ∧ (generate_reports stR countR).1
        = .error "Missing required entities in the database. Please generate them first."
  ∧ (generate_reports stR countR).2
        = [IOOp.connect, IOOp.read "patients", IOOp.read "radiologues", IOOp.read "doctors"]
  ∧ exitCode (generate_reports stR countR).1 = 1 := by
  have hOemp : stO.doctors.isEmpty || stO.patients.isEmpty := by
    rcases hOe with h | h <;> simp [h]
  have hRemp : stR.patients.isEmpty || stR.radiologues.isEmpty || stR.doctors.isEmpty := by
    rcases hRe with h | h | h <;> simp [h]
  have hO : generate_ordonnances stO countO
      = (.error "No doctors or patients found in the database. Please generate them first.",
         [IOOp.connect, IOOp.read "doctors", IOOp.read "patients"]) := by
    simp [generate_ordonnances, cache_ids, hOc, hOemp]
  have hR : generate_reports stR countR
      = (.error "Missing required entities in the database. Please generate them first.",
         [IOOp.connect, IOOp.read "patients", IOOp.read "radiologues", IOOp.read "doctors"]) := by
    simp [generate_reports, reports_cache_ids, hRc, hRemp]
  refine ⟨?_, ?_, ?_, ?_, ?_, ?_⟩ <;> simp [hO, hR, exitCode]

theorem C4_missing_prerequisite_witness :
    (generate_ordonnances ⟨true, [], [], fun _ s => .ok s⟩ 20).1
        = .error "No doctors or patients found in the database. Please generate them first."
  ∧ (generate_ordonnances ⟨true, [], [], fun _ s => .ok s⟩ 20).2
        = [IOOp.connect, IOOp.read "doctors", IOOp.read "patients"]
  ∧ exitCode (generate_ordonnances ⟨true, [], [], fun _ s => .ok s⟩ 20).1 = 1
  ∧ (generate_reports ⟨true, [], [], [], fun _ s => .ok s⟩ 30).1
        = .error "Missing required entities in the database. Please generate them first."
  ∧ (generate_reports ⟨true, [], [], [], fun _ s => .ok s⟩ 30).2
        = [IOOp.connect, IOOp.read "patients", IOOp.read "radiologues", IOOp.read "doctors"]
  ∧ exitCode (generate_reports ⟨true, [], [], [], fun _ s => .ok s⟩ 30).1 = 1 :=
  C4_missing_prerequisite ⟨true, [], [], fun _ s => .ok s⟩ ⟨true, [], [], [], fun _ s => .ok s⟩
    20 30 rfl (Or.inl rfl) rfl (Or.inl rfl)

/-- C7: for every requested count not greater than 0, `main` fails with the
invalid-argument error and a non-zero exit status, with an empty I/O trace
(no connection is opened, nothing is read or written). -/
theorem C7_invalid_count (stP : Storage) (stO : OrdStorage) (n m : Nat)
    (hn : n ≤ 0) (hm : m ≤ 0) :
    patients_main stP n = (.error "Number of patients must be greater than 0", [])
  ∧ exitCode (patients_main stP n).1 = 1
  ∧ ordonnances_main stO m = (.error "Number of prescriptions must be greater than 0", [])
  ∧ exitCode (ordonnances_main stO m).1 = 1 := by
  have h1 : patients_main stP n
      = (.error "Number of patients must be greater than 0", []) := by
    simp [patients_main, hn]
  have h2 : ordonnances_main stO m
      = (.error "Number of prescriptions must be greater than 0", []) := by
    simp [ordonnances_main, hm]
  exact ⟨h1, by simp [h1, exitCode], h2, by simp [h2, exitCode]⟩

theorem C7_invalid_count_witness :
    patients_main ⟨true, fun _ s => .ok s⟩ 0
        = (.error "Number of patients must be greater than 0", [])
  ∧ exitCode (patients_main ⟨true, fun _ s => .ok s⟩ 0).1 = 1
  ∧ ordonnances_main ⟨true, [1], [2], fun _ s => .ok s⟩ 0
        = (.error "Number of prescriptions must be greater than 0", [])
  ∧ exitCode (ordonnances_main ⟨true, [1], [2], fun _ s => .ok s⟩ 0).1 = 1 :=
  C7_invalid_count ⟨true, fun _ s => .ok s⟩ ⟨true, [1], [2], fun _ s => .ok s⟩ 0 0
    (Nat.le_refl 0) (Nat.le_refl 0)

/-! ### Entity synthesizers

Randomness is an explicit draw function `d : Nat → Nat` (one independent draw
per call site, numbered in source order); the `fake` text collaborator and
`bcrypt` are parameters.  All `.choose(&mut rng).unwrap()` calls are embedded
as `choose` binds in the `Option` monad: `none` is the `unwrap` panic, which
the totality theorems show unreachable on the fixed non-empty pools. -/

/-- ordonnances.rs `struct Medication`. -/
structure Medication : Type where
  name : String
  dosage : String
  frequency : String
  duration : Option String
deriving DecidableEq, Repr

/-- ordonnances.rs `struct Ordonnance`.  `date` is the generated creation
date's day number (the source renders it with `to_rfc3339`). -/
structure Ordonnance : Type where
  doctor_id : ObjectId
  patient_id : ObjectId
  patient_name : String
  doctor_name : String
  medications : List Medication
  instructions : String
  diagnosis : String
  date : Int
  signature : Option String
deriving DecidableEq, Repr

def medications_pool : List String :=
  ["Amoxicillin", "Ibuprofen", "Paracetamol", "Aspirin",
   "Loratadine", "Omeprazole", "Metformin", "Lisinopril",
   "Atorvastatin", "Albuterol", "Levothyroxine", "Metoprolol",
   "Prednisone", "Gabapentin", "Amlodipine"]

/-- ordonnances.rs `generate_medication` (lines 85–101); `base` numbers the
four draws it makes. -/
def generate_medication (d : Nat → Nat) (base : Nat) : Option Medication := do
  let name ← choose medications_pool (d base)
  pure ⟨name,
        toString (genRange 100 1001 (d (base + 1))) ++ " mg",
        toString (genRange 1 4 (d (base + 2))) ++ " times per day",
        some (toString (genRange 3 15 (d (base + 3))) ++ " days")⟩

/-- `(0..num_medications).map(|_| generate_medication()).collect()`. -/
def generate_medications (d : Nat → Nat) : Nat → Nat → Option (List Medication)
  | _, 0 => some []
  | base, n + 1 => do
    let m ← generate_medication d base
    let ms ← generate_medications d (base + 4) n
    pure (m :: ms)

def first_names : List String :=
  ["John", "Jane", "Michael", "Sarah", "David", "Lisa", "Robert", "Emily",
   "William", "Olivia"]

def last_names : List String :=
  ["Smith", "Johnson", "Williams", "Brown", "Jones", "Miller", "Davis",
   "Garcia", "Rodriguez", "Wilson"]

def doctor_titles : List String := ["Dr.", "Dr.", "Prof.", "Dr.", "Dr."]

def common_diagnoses : List String :=
  ["Upper respiratory infection", "Hypertension", "Type 2 diabetes",
   "Acute bronchitis", "Allergic rhinitis", "Urinary tract infection",
   "Viral gastroenteritis", "Migraine headache", "Anxiety disorder",
   "Lower back pain"]

/-- ordonnances.rs `generate_ordonnance` (lines 104–158).  `instructionsText`
stands for the external `Paragraph(1..2).fake()` call. -/
def generate_ordonnance (medecin_ids patient_ids : List ObjectId)
    (nowDay : Int) (instructionsText : String) (d : Nat → Nat) : Option Ordonnance := do
  let date_creation := randomDateWithin 365 nowDay (d 0)
  let patient_first_name ← choose first_names (d 1)
  let patient_last_name ← choose last_names (d 2)
  let doctor_first_name ← choose first_names (d 3)
  let doctor_last_name ← choose last_names (d 4)
  let doctor_title ← choose doctor_titles (d 5)
  let medications ← generate_medications d 7 (genRange 1 4 (d 6))
  let doctor_id ← choose medecin_ids (d 19)
  let patient_id ← choose patient_ids (d 20)
  let diagnosis ← choose common_diagnoses (d 21)
  pure ⟨doctor_id, patient_id,
        patient_first_name ++ " " ++ patient_last_name,
        doctor_title ++ " " ++ doctor_first_name ++ " " ++ doctor_last_name,
        medications, instructionsText, diagnosis, date_creation,
        if genBoolTenths 7 (d 22) then
          some "data:image/png;base64,iVBORw0KGgoAAAANSUhEUgAAABg"
        else none⟩

/-- reports.rs `struct Report`.  `analysis` is always `None` in the source (its
`Analysis` payload is never built), so its payload type is irrelevant here. -/
structure Report : Type where
  title : String
  content : String
  patient_id : ObjectId
  doctor_id : ObjectId
  radiologist_id : ObjectId
  exam_type : String
  body_part : String
  exam_date : Int
  conclusion : String
  analysis : Option Unit
  tags : List String
  image_path : String
deriving DecidableEq, Repr

def report_types : List String :=
  ["IRM", "Scanner", "Échographie", "Radiographie", "Mammographie"]

def body_parts : List String :=
  ["Tête", "Thorax", "Abdomen", "Membres inférieurs", "Membres supérieurs",
   "Colonne vertébrale", "Bassin"]

def findings : List String :=
  ["Normal", "Légère anomalie", "Anomalie significative",
   "Résultats préoccupants", "Résultats critiques"]

/-- reports.rs `generate_report` (lines 114–152).  `uuid` stands for the
external `Uuid::new_v4()`; the computed-but-unused `recommendations` binding of
the source is dropped (it never reaches the record). -/
def generate_report (patient_ids radiologue_ids medecin_ids : List ObjectId)
    (nowDay : Int) (uuid : String) (d : Nat → Nat) : Option Report := do
  let date_examen := randomDateWithin 180 nowDay (d 0)
  let patient_id ← choose patient_ids (d 1)
  let radiologist_id ← choose radiologue_ids (d 2)
  let doctor_id ← choose medecin_ids (d 3)
  let exam_type ← choose report_types (d 4)
  let body_part ← choose body_parts (d 5)
  let conclusion ← choose findings (d 6)
  pure ⟨"Random Report Title", "Random Report Content",
        patient_id, doctor_id, radiologist_id, exam_type, body_part,
        date_examen, conclusion, none, ["tag1", "tag2"],
        "/images/reports/" ++ uuid ++ ".jpg"⟩

theorem generate_medication_total (d : Nat → Nat) (base : Nat) :
    ∃ m, generate_medication d base = some m := by
  obtain ⟨a, ha, _⟩ := choose_eq_some medications_pool (d base) (by decide)
  refine ⟨⟨a, toString (genRange 100 1001 (d (base + 1))) ++ " mg",
           toString (genRange 1 4 (d (base + 2))) ++ " times per day",
           some (toString (genRange 3 15 (d (base + 3))) ++ " days")⟩, ?_⟩
  simp [generate_medication, ha]

theorem generate_medications_total (d : Nat → Nat) :
    ∀ (n base : Nat), ∃ ms, generate_medications d base n = some ms := by
  intro n
  induction n with
  | zero => intro base; exact ⟨[], rfl⟩
  | succ n ih =>
    intro base
    obtain ⟨m, hm⟩ := generate_medication_total d base
    obtain ⟨ms, hms⟩ := ih (base + 4)
    exact ⟨m :: ms, by simp [generate_medications, hm, hms]⟩

/-! ### C5: the date look-back window -/

/-- C5, counterexample: with the prescriptions window `W = 365` and the current
day numbered 0, no draw generates the current day itself: `gen_range(0..365)`
excludes its upper bound, so the latest date the generator can produce is one
day in the past — the claim that the current day is a possible value is false. -/
theorem C5_counterexample : ¬ ∃ r : Nat, randomDateWithin 365 0 r = 0 := by
  rintro ⟨r, hr⟩
  have h : r % 365 < 365 := Nat.mod_lt r (by decide)
  simp only [randomDateWithin, genRange, Nat.sub_zero, Nat.zero_add, zero_add] at hr
  omega

/-- C5, amended: a date generated with look-back window `W > 0` always lies in
`[now - W days, now - 1 day]` at day granularity; the lower endpoint is
attainable (draw 0) but the current day never is, because the uniform offset
`gen_range(0..W)` excludes its upper bound. -/
theorem C5_date_window (W r : Nat) (nowDay : Int) (hW : 0 < W) :
    nowDay - W ≤ randomDateWithin W nowDay r
  ∧ randomDateWithin W nowDay r ≤ nowDay - 1
  ∧ randomDateWithin W nowDay 0 = nowDay - W := by
  have h : r % W < W := Nat.mod_lt r hW
  refine ⟨?_, ?_, ?_⟩ <;>
    simp only [randomDateWithin, genRange, Nat.sub_zero, Nat.zero_mod, zero_add] <;>
    omega

theorem C5_date_window_witness :
    ((20000 : Int) - 365 ≤ randomDateWithin 365 20000 1000
  ∧ randomDateWithin 365 20000 1000 ≤ 20000 - 1
  ∧ randomDateWithin 365 20000 0 = 20000 - 365) :=
  C5_date_window 365 1000 20000 (by decide)

/-! ### C6: synthesis is total and foreign keys stay in their pools -/

/-- C6: given non-empty id pools, `generate_ordonnance` and `generate_report`
return a record (no `unwrap` can fail), and every foreign-key field of the
record is an element of the corresponding supplied pool. -/
theorem C6_synthesis_total_fk (medecin_ids patient_ids : List ObjectId)
    (p_ids r_ids d_ids : List ObjectId) (nowDay : Int) (instr uuid : String)
    (d e : Nat → Nat)
    (h1 : medecin_ids ≠ []) (h2 : patient_ids ≠ [])
    (h3 : p_ids ≠ []) (h4 : r_ids ≠ []) (h5 : d_ids ≠ []) :
    (∃ o, generate_ordonnance medecin_ids patient_ids nowDay instr d = some o
        ∧ o.doctor_id ∈ medecin_ids ∧ o.patient_id ∈ patient_ids)
  ∧ (∃ rp, generate_report p_ids r_ids d_ids nowDay uuid e = some rp
        ∧ rp.patient_id ∈ p_ids ∧ rp.radiologist_id ∈ r_ids ∧ rp.doctor_id ∈ d_ids) := by
  constructor
  · obtain ⟨pf, hpf, _⟩ := choose_eq_some first_names (d 1) (by decide)
    obtain ⟨pl, hpl, _⟩ := choose_eq_some last_names (d 2) (by decide)
    obtain ⟨df, hdf, _⟩ := choose_eq_some first_names (d 3) (by decide)
    obtain ⟨dl, hdl, _⟩ := choose_eq_some last_names (d 4) (by decide)
    obtain ⟨dt, hdt, _⟩ := choose_eq_some doctor_titles (d 5) (by decide)
    obtain ⟨meds, hmeds⟩ := generate_medications_total d (genRange 1 4 (d 6)) 7
    obtain ⟨did, hdid, hdmem⟩ := choose_eq_some medecin_ids (d 19) h1
    obtain ⟨pid, hpid, hpmem⟩ := choose_eq_some patient_ids (d 20) h2
    obtain ⟨diag, hdiag, _⟩ := choose_eq_some common_diagnoses (d 21) (by decide)
    refine ⟨⟨did, pid, pf ++ " " ++ pl, dt ++ " " ++ df ++ " " ++ dl, meds, instr,
             diag, randomDateWithin 365 nowDay (d 0),
             if genBoolTenths 7 (d 22) then
               some "data:image/png;base64,iVBORw0KGgoAAAANSUhEUgAAABg"
             else none⟩, ?_, hdmem, hpmem⟩
    simp [generate_ordonnance, hpf, hpl, hdf, hdl, hdt, hmeds, hdid, hpid, hdiag]
  · obtain ⟨pid, hpid, hpmem⟩ := choose_eq_some p_ids (e 1) h3
    obtain ⟨rid, hrid, hrmem⟩ := choose_eq_some r_ids (e 2) h4
    obtain ⟨did, hdid, hdmem⟩ := choose_eq_some d_ids (e 3) h5
    obtain ⟨et, het, _⟩ := choose_eq_some report_types (e 4) (by decide)
    obtain ⟨bp, hbp, _⟩ := choose_eq_some body_parts (e 5) (by decide)
    obtain ⟨cc, hcc, _⟩ := choose_eq_some findings (e 6) (by decide)
    refine ⟨⟨"Random Report Title", "Random Report Content", pid, did, rid, et, bp,
             randomDateWithin 180 nowDay (e 0), cc, none, ["tag1", "tag2"],
             "/images/reports/" ++ uuid ++ ".jpg"⟩, ?_, hpmem, hrmem, hdmem⟩
    simp [generate_report, hpid, hrid, hdid, het, hbp, hcc]

theorem C6_synthesis_total_fk_witness :
    (∃ o, generate_ordonnance [5] [9] 0 "take two" (fun _ => 0) = some o
        ∧ o.doctor_id ∈ [5] ∧ o.patient_id ∈ [9])
  ∧ (∃ rp, generate_report [3] [4] [5] 0 "u" (fun _ => 0) = some rp
        ∧ rp.patient_id ∈ [3] ∧ rp.radiologist_id ∈ [4] ∧ rp.doctor_id ∈ [5]) :=
  C6_synthesis_total_fk [5] [9] [3] [4] [5] 0 "take two" "u" (fun _ => 0) (fun _ => 0)
    (by decide) (by decide) (by decide) (by decide) (by decide)

/-! ### patients.rs / medecins.rs / radiologues.rs record synthesis -/

/-- Values supplied by the external `fake` collaborator during one record
synthesis (names, contact data, prose); `sentence`/`word` are indexed by the
call number within the record. -/
structure Faker : Type where
  lastName : String
  firstName : String
  email : String
  phone : String
  street : String
  sentence : Nat → String
  word : Nat → String

/-- lib.rs `hash_password` (lines 62–67): `bcrypt::hash(password, DEFAULT_COST)`
followed by `unwrap_or_else(|e| panic!("Password hashing failed"))`.  The
external `bcrypt::hash` is the parameter `bcryptHash`; `none` models the
process-terminating panic branch. -/
def hash_password (bcryptHash : String → Option String) (password : String) :
    Option String :=
  bcryptHash password

/-- patients.rs `struct Patient`; the two date fields are day numbers. -/
structure Patient : Type where
  nom : String
  prenom : String
  email : String
  telephone : String
  adresse : String
  dateNaissance : Int
  groupeSanguin : String
  numeroSecuriteSociale : String
  antecedentsMedicaux : List String
  allergies : List String
  dateInscription : Int
  password : String

def blood_types : List String := ["A+", "A-", "B+", "B-", "AB+", "AB-", "O+", "O-"]

/-- One iteration of the patients.rs generation loop body (lines 72–117),
producing the `Patient` that is pushed into the batch. -/
def generate_patient (bcryptHash : String → Option String) (fk : Faker)
    (nowDay : Int) (d : Nat → Nat) : Option Patient := do
  let date_inscription := randomDateWithin 730 nowDay (d 0)
  let years_ago := genRange 1 91 (d 1)
  let birth_date := nowDay - 365 * years_ago
  let numero_securite_sociale :=
    String.join ((List.range 15).map (fun k => toString (genRange 0 10 (d (2 + k)))))
  let antecedents : List String :=
    if genBoolTenths 3 (d 17) then
      (List.range (genRange 1 4 (d 18))).map fk.sentence
    else []
  let allergies : List String :=
    if genBoolTenths 5 (d 19) then
      (List.range (genRange 1 4 (d 20))).map fk.word
    else []
  let password ← hash_password bcryptHash "password"
  let groupeSanguin ← choose blood_types (d 21)
  pure ⟨fk.lastName, fk.firstName, fk.email, fk.phone, fk.street,
        birth_date, groupeSanguin, numero_securite_sociale,
        antecedents, allergies, date_inscription, password⟩

/-- medecins.rs `struct Doctor`. -/
structure Doctor : Type where
  nom : String
  prenom : String
  email : String
  telephone : String
  adresse : String
  specialite : String
  dateInscription : Int
  numeroOrdre : String
  password : String

def specialities : List String :=
  ["Cardiologue", "Dermatologue", "Neurologue", "Pédiatre",
   "Radiologue", "Chirurgien", "Généraliste", "Ophtalmologue"]

/-- One iteration of the medecins.rs generation loop body (lines 68–106). -/
def generate_doctor (bcryptHash : String → Option String) (fk : Faker)
    (nowDay : Int) (d : Nat → Nat) : Option Doctor := do
  let date_inscription := randomDateWithin 1825 nowDay (d 0)
  let numero_ordre :=
    "MD" ++ String.join ((List.range 6).map (fun k => toString (genRange 0 10 (d (1 + k)))))
  let password ← hash_password bcryptHash "password"
  let specialite ← choose specialities (d 7)
  pure ⟨fk.lastName, fk.firstName, fk.email, fk.phone, fk.street,
        specialite, date_inscription, numero_ordre, password⟩

/-- radiologues.rs `struct Radiologue`. -/
structure Radiologue : Type where
  nom : String
  prenom : String
  email : String
  telephone : String
  adresse : String
  specialiteRadiologie : String
  equipements : List String
  dateInscription : Int
  numeroOrdre : String
  password : String

def equipments : List String :=
  ["IRM", "Scanner", "Échographie", "Radiographie", "Mammographie"]

def radiology_types : List String :=
  ["Général", "Neurologique", "Musculosquelettique", "Abdominale", "Thoracique"]

/-- The equipment selection loop of radiologues.rs (lines 85–91): `n` picks,
each removing the chosen index from the available list; the loop breaks (and
`choose` yields `none`) when the list is exhausted. -/
def selectLoop (d : Nat → Nat) : Nat → Nat → List String → List String
  | _, 0, _ => []
  | i, n + 1, avail =>
    match choose avail (d i) with
    | none => []
    | some x => x :: selectLoop d (i + 1) n (avail.eraseIdx (d i % avail.length))

/-- `let num_equipments = rng.gen_range(1..=3);` followed by the selection loop
(draws 7 and 8–10 of the radiologue record). -/
def selected_equipments (d : Nat → Nat) : List String :=
  selectLoop d 8 (genRangeIncl 1 3 (d 7)) equipments

/-- One iteration of the radiologues.rs generation loop body (lines 66–119). -/
def generate_radiologue (bcryptHash : String → Option String) (fk : Faker)
    (nowDay : Int) (d : Nat → Nat) : Option Radiologue := do
  let date_inscription := randomDateWithin 1825 nowDay (d 0)
  let numero_ordre :=
    "RD" ++ String.join ((List.range 6).map (fun k => toString (genRange 0 10 (d (1 + k)))))
  let selected := selected_equipments d
  let password ← hash_password bcryptHash "password"
  let specialiteRadiologie ← choose radiology_types (d 11)
  pure ⟨fk.lastName, fk.firstName, fk.email, fk.phone, fk.street,
        specialiteRadiologie, selected, date_inscription, numero_ordre, password⟩

/-! ### Facts about the equipment selection loop -/

theorem choose_eq_none {α : Type} (l : List α) (r : Nat) (h : choose l r = none) :
    l = [] := by
  rcases List.eq_nil_or_concat l with hnil | ⟨_, _, _⟩
  · exact hnil
  · obtain ⟨a, ha, _⟩ := choose_eq_some l r (by subst_vars; simp)
    rw [ha] at h
    exact absurd h (by simp)

theorem selectLoop_length (d : Nat → Nat) :
    ∀ (n : Nat) (i : Nat) (avail : List String), n ≤ avail.length →
      (selectLoop d i n avail).length = n := by
  intro n
  induction n with
  | zero => intro i avail _; rfl
  | succ n ih =>
    intro i avail h
    have hne : avail ≠ [] := by
      intro hnil; subst hnil; simp at h
    obtain ⟨x, hx, _⟩ := choose_eq_some avail (d i) hne
    have hlen : 0 < avail.length := List.length_pos.mpr hne
    have herase : (avail.eraseIdx (d i % avail.length)).length = avail.length - 1 := by
      rw [List.length_eraseIdx]
      simp [Nat.mod_lt _ hlen]
    simp only [selectLoop, hx, List.length_cons]
    rw [ih (i + 1) _ (by omega)]

theorem selectLoop_subset (d : Nat → Nat) :
    ∀ (n : Nat) (i : Nat) (avail : List String),
      ∀ x ∈ selectLoop d i n avail, x ∈ avail := by
  intro n
  induction n with
  | zero => intro i avail x hx; simp [selectLoop] at hx
  | succ n ih =>
    intro i avail x hx
    cases hch : choose avail (d i) with
    | none => simp [selectLoop, hch] at hx
    | some y =>
      simp only [selectLoop, hch, List.mem_cons] at hx
      rcases hx with rfl | hx
      · have hne : avail ≠ [] := by
          intro hnil; subst hnil; simp [choose] at hch
        obtain ⟨a, ha, hmem⟩ := choose_eq_some avail (d i) hne
        exact (Option.some_injective _ (ha.symm.trans hch)) ▸ hmem
      · exact (List.eraseIdx_sublist avail (d i % avail.length)).subset (ih (i + 1) _ x hx)

theorem get_not_mem_eraseIdx {α : Type} :
    ∀ (l : List α) (i : Nat) (h : i < l.length), l.Nodup → l.get ⟨i, h⟩ ∉ l.eraseIdx i := by
  intro l
  induction l with
  | nil => intro i h; simp at h
  | cons a t ih =>
    intro i h hnd
    cases i with
    | zero => simpa using (List.nodup_cons.mp hnd).1
    | succ i =>
      simp only [List.eraseIdx, List.get_cons_succ]
      intro hmem
      rcases List.mem_cons.mp hmem with heq | hmem'
      · have hti : i < t.length := by simpa using h
        have : t.get ⟨i, hti⟩ ∈ t := List.get_mem t i hti
        rw [heq] at this
        exact (List.nodup_cons.mp hnd).1 this
      · exact ih i (by simpa using h) (List.nodup_cons.mp hnd).2 hmem'

theorem selectLoop_nodup (d : Nat → Nat) :
    ∀ (n : Nat) (i : Nat) (avail : List String), avail.Nodup →
      (selectLoop d i n avail).Nodup := by
  intro n
  induction n with
  | zero => intro i avail _; exact List.nodup_nil
  | succ n ih =>
    intro i avail hnd
    cases hch : choose avail (d i) with
    | none => simp [selectLoop, hch]
    | some x =>
      have hne : avail ≠ [] := by
        intro hnil; subst hnil; simp [choose] at hch
      have hlen : 0 < avail.length := List.length_pos.mpr hne
      have hlt : d i % avail.length < avail.length := Nat.mod_lt _ hlen
      have hx : x = avail.get ⟨d i % avail.length, hlt⟩ := by
        have := List.get?_eq_get hlt
        simp only [choose] at hch
        rw [this] at hch
        exact (Option.some_injective _ hch).symm
      simp only [selectLoop, hch, List.nodup_cons]
      refine ⟨fun hmem => ?_, ih (i + 1) _ ((List.eraseIdx_sublist avail _).nodup hnd)⟩
      have hsub := selectLoop_subset d n (i + 1)
        (avail.eraseIdx (d i % avail.length)) x hmem
      rw [hx] at hsub
      exact get_not_mem_eraseIdx avail _ hlt hnd hsub

/-! ### C9 and C10 -/

/-- C9: every generated radiologist record's `equipements` list has between 1
and 3 items inclusive, with no duplicates, each drawn from the fixed 5-element
equipment enumeration (selection is without replacement). -/
theorem C9_equipements (d : Nat → Nat) (bcryptHash : String → Option String)
    (fk : Faker) (nowDay : Int) :
    (1 ≤ (selected_equipments d).length
      ∧ (selected_equipments d).length ≤ 3
      ∧ (selected_equipments d).Nodup
      ∧ ∀ x ∈ selected_equipments d, x ∈ equipments)
  ∧ ∀ r, generate_radiologue bcryptHash fk nowDay d = some r →
      r.equipements = selected_equipments d := by
  have hn : genRangeIncl 1 3 (d 7) ≤ 3 ∧ 1 ≤ genRangeIncl 1 3 (d 7) := by
    have : d 7 % 3 < 3 := Nat.mod_lt _ (by decide)
    simp only [genRangeIncl]
    omega
  have hlen : (selected_equipments d).length = genRangeIncl 1 3 (d 7) :=
    selectLoop_length d _ 8 equipments (by simp [equipments]; omega)
  refine ⟨⟨by omega, by omega, ?_, selectLoop_subset d _ 8 equipments⟩, ?_⟩
  · exact selectLoop_nodup d _ 8 equipments (by decide)
  · intro r hr
    cases hb : bcryptHash "password" with
    | none => simp [generate_radiologue, hash_password, hb] at hr
    | some h =>
      obtain ⟨sp, hsp, _⟩ := choose_eq_some radiology_types (d 11) (by decide)
      simp only [generate_radiologue, hash_password, hb, hsp, Option.some_bind] at hr
      cases hr
      rfl

theorem C9_equipements_witness :
    (1 ≤ (selected_equipments (fun _ => 0)).length
      ∧ (selected_equipments (fun _ => 0)).length ≤ 3
      ∧ (selected_equipments (fun _ => 0)).Nodup
      ∧ ∀ x ∈ selected_equipments (fun _ => 0), x ∈ equipments)
  ∧ ∀ r, generate_radiologue (fun _ => some "h")
        ⟨"n", "p", "e", "t", "a", fun _ => "s", fun _ => "w"⟩ 0 (fun _ => 0) = some r →
      r.equipements = selected_equipments (fun _ => 0) :=
  C9_equipements (fun _ => 0) (fun _ => some "h")
    ⟨"n", "p", "e", "t", "a", fun _ => "s", fun _ => "w"⟩ 0

/-- C10: for every generated patient, doctor and radiologist record, the stored
`password` field is exactly the bcrypt hash of the fixed plaintext
`"password"`; and when hashing fails the synthesis yields no record at all
(the `hash_password` panic terminates the process). -/
theorem C10_password_bcrypt (bcryptHash : String → Option String) (fk : Faker)
    (nowDay : Int) (d : Nat → Nat) :
    ((generate_patient bcryptHash fk nowDay d).map Patient.password
        = hash_password bcryptHash "password")
  ∧ ((generate_doctor bcryptHash fk nowDay d).map Doctor.password
        = hash_password bcryptHash "password")
  ∧ ((generate_radiologue bcryptHash fk nowDay d).map Radiologue.password
        = hash_password bcryptHash "password") := by
  cases hb : bcryptHash "password" with
  | none =>
    refine ⟨?_, ?_, ?_⟩ <;>
      simp [generate_patient, generate_doctor, generate_radiologue, hash_password, hb]
  | some h =>
    obtain ⟨bt, hbt, _⟩ := choose_eq_some blood_types (d 21) (by decide)
    obtain ⟨sp, hsp, _⟩ := choose_eq_some specialities (d 7) (by decide)
    obtain ⟨rt, hrt, _⟩ := choose_eq_some radiology_types (d 11) (by decide)
    refine ⟨?_, ?_, ?_⟩
    · simp [generate_patient, hash_password, hb, hbt]
    · simp [generate_doctor, hash_password, hb, hsp]
    · simp [generate_radiologue, hash_password, hb, hrt]

/-! ### create_indexes.rs: the static index definitions, and the collection /
field names each generator actually writes -/

/-- One `IndexModel` from create_indexes.rs: target collection, indexed field
(every index in the script is single-field), uniqueness flag. -/
structure IndexSpec : Type where
  collection : String
  field : String
  unique : Bool
deriving DecidableEq, Repr

/-- The full list built by `create_indexes` (create_indexes.rs lines 20–101),
in program order. -/
def created_indexes : List IndexSpec :=
  [⟨"patients", "email", true⟩,
   ⟨"patients", "numeroSecuriteSociale", true⟩,
   ⟨"medecins", "email", true⟩,
   ⟨"medecins", "numeroOrdre", true⟩,
   ⟨"radiologues", "email", true⟩,
   ⟨"radiologues", "numeroOrdre", true⟩,
   ⟨"reports", "patient_id", false⟩,
   ⟨"reports", "radiologue_id", false⟩,
   ⟨"reports", "medecin_id", false⟩,
   ⟨"ordonnances", "patient_id", false⟩,
   ⟨"ordonnances", "medecin_id", false⟩]

/-- The collection each generator writes to (`db.collection::<Document>(...)`
in each binary's generate function). -/
def generator_write_collections : List String :=
  ["patients", "doctors", "radiologues", "ordonnances", "reports"]

/-- medecins.rs line 45: `db.collection::<Document>("doctors")`. -/
def doctors_write_collection : String := "doctors"

/-- The field names of the document pushed by reports.rs (lines 180–198);
`analysis` is conditional and never present (the source always sets it to
`None`), so it is omitted. -/
def report_doc_fields : List String :=
  ["title", "content", "patient_id", "radiologist_id", "doctor_id",
   "exam_type", "body_part", "exam_date", "conclusion", "image_path", "tags"]

/-- The field names of the document pushed by ordonnances.rs (lines 186–204). -/
def ordonnance_doc_fields : List String :=
  ["doctor_id", "patient_id", "patient_name", "doctor_name", "date",
   "medications", "instructions", "diagnosis", "signature"]

/-- C8: the index-creation script's target names differ from the generators'
write names — the doctor unique indexes go to collection `"medecins"` while the
doctor generator writes to `"doctors"` (a collection no generator writes), and
the report/prescription foreign-key indexes name fields `"radiologue_id"` and
`"medecin_id"` while those generators write `"radiologist_id"` and
`"doctor_id"` — so each of those unique and foreign-key indexes applies to no
document any generator inserts. -/
theorem C8_index_name_mismatch :
    (∀ ix ∈ created_indexes, ix.unique = true → ix.collection = "medecins" →
        ix.collection ∉ generator_write_collections)
  ∧ doctors_write_collection = "doctors"
  ∧ (∃ ix ∈ created_indexes, ix.collection = "medecins" ∧ ix.unique = true)
  ∧ ⟨"reports", "radiologue_id", false⟩ ∈ created_indexes
  ∧ ⟨"reports", "medecin_id", false⟩ ∈ created_indexes
  ∧ ⟨"ordonnances", "medecin_id", false⟩ ∈ created_indexes
  ∧ "radiologue_id" ∉ report_doc_fields
  ∧ "medecin_id" ∉ report_doc_fields
  ∧ "medecin_id" ∉ ordonnance_doc_fields
  ∧ "radiologist_id" ∈ report_doc_fields
  ∧ "doctor_id" ∈ report_doc_fields
  ∧ "doctor_id" ∈ ordonnance_doc_fields := by
  refine ⟨?_, rfl, ?_, ?_, ?_, ?_, ?_, ?_, ?_, ?_, ?_, ?_⟩ <;> decide

end Medapp
